import Mathlib

/-!
Glyph descriptor cache of the FreeType font adapter.

A shallow embedding of `src/libs/freetype/lv_freetype_glyph.c`:

* `freetype_glyph_compare_cb`, the ordering of cache keys,
* `freetype_get_glyph_dsc_cb`, the entry point handed to the text renderer,
* `freetype_glyph_create_cb`, the creation callback run by the cache on a miss.

The generic cache (`lv_cache_*`) and the rasterizer (`FT_*`, `FTC_*`) are libraries
whose code is not part of this file; they enter the embedding as parameters
(`lv_cache_ops`, `FreeType`) over an abstract state, and every call made to them is
also written to a call log, so that statements about which calls happen, and in
which order, can be made.
-/

namespace LvFreetypeGlyph

/-! ## Data model -/

/-- Glyph descriptor `lv_font_glyph_dsc_t`, with the fields that the C file names.
Unsigned fields are naturals, signed fields are integers, a C pointer is an
optional address (`none` is `NULL`). -/
structure lv_font_glyph_dsc_t where
  adv_w : Nat
  box_w : Nat
  box_h : Nat
  ofs_x : Int
  ofs_y : Int
  bpp : Nat
  is_placeholder : Bool
  glyph_index : Nat
  entry : Option Nat
  deriving DecidableEq, Repr

/-- Cache record `lv_freetype_glyph_cache_data_t`: the key (`unicode`, `size`)
followed by the cached descriptor. -/
structure lv_freetype_glyph_cache_data_t where
  unicode : Nat
  size : Nat
  glyph_dsc : lv_font_glyph_dsc_t
  deriving DecidableEq, Repr

/-- Font description `lv_freetype_font_dsc_t`, with the fields the C file reads:
`size`, `style`, `face_id` and `context->cmap_cache` (handles are addresses). -/
structure lv_freetype_font_dsc_t where
  size : Nat
  style : Nat
  face_id : Nat
  cmap_cache : Nat
  deriving DecidableEq, Repr

/-! ## Key comparison -/

/-- Embedding of `freetype_glyph_compare_cb` (lines 185-195). The result type
`lv_cache_compare_res_t` is a signed integer; the code returns `1`, `-1` or `0`. -/
def freetype_glyph_compare_cb (lhs rhs : lv_freetype_glyph_cache_data_t) : Int :=
  if lhs.unicode ≠ rhs.unicode then
    (if lhs.unicode > rhs.unicode then 1 else -1)
  else if lhs.size ≠ rhs.size then
    (if lhs.size > rhs.size then 1 else -1)
  else 0

/-! ## Declarations of headers outside this file -/

/-- Bit widths of the integer fields of `lv_font_glyph_dsc_t`. The declaration of
the type lives in a header that is not part of this file, so the widths are
a parameter: `adv_w`, `box_w`, `box_h` and `bpp` are unsigned fields, `ofs_x` and
`ofs_y` signed ones. -/
structure glyph_dsc_bits where
  adv_w : Nat
  box_w : Nat
  box_h : Nat
  ofs_x : Nat
  ofs_y : Nat
  bpp : Nat
  deriving DecidableEq, Repr

/-- Build-time choice `LV_FREETYPE_CACHE_TYPE` between the two `#if` branches of
`freetype_glyph_create_cb`. -/
inductive cache_type where
  | LV_FREETYPE_CACHE_TYPE_OUTLINE
  | LV_FREETYPE_CACHE_TYPE_BITMAP
  deriving DecidableEq, Repr

/-- Conversion of an integer value to an unsigned field of `bits` bits (C
assignment to an unsigned type reduces modulo `2 ^ bits`). -/
def to_unsigned (bits : Nat) (v : Int) : Nat :=
  (v % (2 : Int) ^ bits).toNat

/-- Conversion of an integer value to a signed two's-complement field of `bits`
bits (the value is kept when it is in range, and wraps otherwise). -/
def to_signed (bits : Nat) (v : Int) : Int :=
  (v + (2 : Int) ^ (bits - 1)) % (2 : Int) ^ bits - (2 : Int) ^ (bits - 1)

/-- The all-zero descriptor: what a designated initializer leaves in the members
it does not name (`search_key` at lines 97-100 names `unicode` and `size` only). -/
def glyph_dsc_zero : lv_font_glyph_dsc_t :=
  { adv_w := 0, box_w := 0, box_h := 0, ofs_x := 0, ofs_y := 0, bpp := 0,
    is_placeholder := false, glyph_index := 0, entry := none }

/-! ## The cache library, as a parameter -/

/-- The three `lv_cache_*` functions that `freetype_get_glyph_dsc_cb` calls, over
an abstract cache state `σ`. An entry handle (`lv_cache_entry_t *`) is an address;
`none` is `NULL`. `lv_cache_acquire_or_create cache key user_data` returns the
new cache state and the handle. -/
structure lv_cache_ops (σ : Type) where
  lv_cache_acquire_or_create :
    σ → lv_freetype_glyph_cache_data_t → lv_freetype_font_dsc_t → σ × Option Nat
  lv_cache_entry_get_data : σ → Nat → lv_freetype_glyph_cache_data_t
  lv_cache_release : σ → Nat → σ

/-- One call made to the cache library, with its arguments (and, for
`lv_cache_acquire_or_create`, the handle it returned). -/
inductive cache_call where
  | acquire_or_create (key : lv_freetype_glyph_cache_data_t)
      (user_data : lv_freetype_font_dsc_t) (res : Option Nat)
  | entry_get_data (entry : Nat)
  | release (entry : Nat)
  deriving DecidableEq, Repr

/-- Handles returned by the successful `lv_cache_acquire_or_create` calls of a
log, in order. -/
def acquired : List cache_call → List Nat
  | [] => []
  | .acquire_or_create _ _ (some e) :: cs => e :: acquired cs
  | _ :: cs => acquired cs

/-- Handles passed to the `lv_cache_release` calls of a log, in order. -/
def released : List cache_call → List Nat
  | [] => []
  | .release e :: cs => e :: released cs
  | _ :: cs => released cs

/-- Everything `freetype_get_glyph_dsc_cb` leaves behind: the returned flag, the
content of `*g_dsc`, the cache state, and the calls made to the cache. -/
structure get_glyph_dsc_result (σ : Type) where
  ret : Bool
  g_dsc : lv_font_glyph_dsc_t
  cache : σ
  calls : List cache_call

/-! ## The font adapter -/

/-- The key built at lines 97-100: `unicode` and `size` named, the rest zero. -/
def search_key (dsc : lv_freetype_font_dsc_t) (unicode_letter : Nat) :
    lv_freetype_glyph_cache_data_t :=
  { unicode := unicode_letter, size := dsc.size, glyph_dsc := glyph_dsc_zero }

/-- Embedding of `freetype_get_glyph_dsc_cb` (lines 78-120). `dsc` is `font->dsc`,
`cache` the state of the cache `lv_freetype_get_glyph_cache(dsc)` on entry, `g_dsc`
the content of the caller's descriptor on entry. `B` gives the field widths and
`ITALIC` the constant `LV_FREETYPE_FONT_STYLE_ITALIC`, both declared in headers.
The sum `box_w + ofs_x` is computed in `int` and converted to the unsigned field
`adv_w` on assignment. -/
def freetype_get_glyph_dsc_cb {σ : Type} (B : glyph_dsc_bits) (ITALIC : Nat)
    (C : lv_cache_ops σ) (dsc : lv_freetype_font_dsc_t) (cache : σ)
    (g_dsc : lv_font_glyph_dsc_t) (unicode_letter unicode_letter_next : Nat) :
    get_glyph_dsc_result σ :=
  if unicode_letter < 0x20 then
    { ret := true
      g_dsc := { g_dsc with adv_w := 0, box_h := 0, box_w := 0, ofs_x := 0, ofs_y := 0, bpp := 0 }
      cache := cache
      calls := [] }
  else
    match C.lv_cache_acquire_or_create cache (search_key dsc unicode_letter) dsc with
    | (cache1, none) =>
      { ret := false
        g_dsc := g_dsc
        cache := cache1
        calls := [.acquire_or_create (search_key dsc unicode_letter) dsc none] }
    | (cache1, some entry) =>
      let data := C.lv_cache_entry_get_data cache1 entry
      let g1 := data.glyph_dsc
      let g2 :=
        if (dsc.style &&& ITALIC) ≠ 0 ∧ unicode_letter_next = 0 then
          { g1 with adv_w := to_unsigned B.adv_w ((g1.box_w : Int) + g1.ofs_x) }
        else g1
      { ret := true
        g_dsc := { g2 with entry := none }
        cache := C.lv_cache_release cache1 entry
        calls := [.acquire_or_create (search_key dsc unicode_letter) dsc (some entry),
                  .entry_get_data entry, .release entry] }

/-! ## The rasterizer, as a parameter -/

/-- Glyph metrics `FT_Glyph_Metrics` (26.6 fixed point values). -/
structure FT_Glyph_Metrics where
  width : Int
  height : Int
  horiBearingX : Int
  horiBearingY : Int
  horiAdvance : Int
  deriving DecidableEq, Repr

/-- Bitmap header `FT_Bitmap`, with the two fields read. -/
structure FT_Bitmap where
  rows : Nat
  width : Nat
  deriving DecidableEq, Repr

/-- Glyph slot `FT_GlyphSlotRec`, with the fields read (`advance_x` is
`advance.x`). -/
structure FT_GlyphSlotRec where
  metrics : FT_Glyph_Metrics
  advance_x : Int
  bitmap : FT_Bitmap
  bitmap_left : Int
  bitmap_top : Int
  deriving DecidableEq, Repr

/-- Size object `FT_SizeRec`, with the field read: the face it belongs to. -/
structure FT_SizeRec where
  face : Nat
  deriving DecidableEq, Repr

/-- The rasterizer functions and constants that `freetype_glyph_create_cb` uses,
over an abstract library state `φ`. `lv_freetype_lookup_size` returns `none` for a
`NULL` size. `charmap` and `glyph` read `face->charmap` and `face->glyph`.
`FT_Set_Pixel_Sizes` returns the new state only, since the code drops its error
code; `FT_Load_Glyph` returns the new state and its error code (0 is success).
`FT_F26DOT6_TO_INT` is the header macro converting 26.6 fixed point to pixels. -/
structure FreeType (φ : Type) where
  lv_freetype_lookup_size : φ → lv_freetype_font_dsc_t → φ × Option FT_SizeRec
  charmap : φ → Nat → Nat
  FT_Get_Charmap_Index : Nat → Nat
  FTC_CMapCache_Lookup : φ → Nat → Nat → Nat → Nat → φ × Nat
  FT_Set_Pixel_Sizes : φ → Nat → Nat → Nat → φ
  FT_Load_Glyph : φ → Nat → Nat → Nat → φ × Nat
  glyph : φ → Nat → FT_GlyphSlotRec
  FT_LOAD_COMPUTE_METRICS : Nat
  FT_LOAD_NO_BITMAP : Nat
  FT_F26DOT6_TO_INT : Int → Int

/-- One call made to the rasterizer, with its arguments. -/
inductive ft_call where
  | lookup_size (dsc : lv_freetype_font_dsc_t)
  | get_charmap_index (charmap : Nat)
  | cmap_lookup (cmap_cache face_id charmap_index unicode : Nat)
  | set_pixel_sizes (face width height : Nat)
  | load_glyph (face glyph_index flags : Nat)
  deriving DecidableEq, Repr

/-- Everything `freetype_glyph_create_cb` leaves behind: the returned flag, the
content of `*data`, the rasterizer state, and the calls made to the rasterizer. -/
structure glyph_create_result (φ : Type) where
  ret : Bool
  data : lv_freetype_glyph_cache_data_t
  ft : φ
  calls : List ft_call

/-! ## The creation callback -/

/-- The glyph index that `freetype_glyph_create_cb` resolves at lines 143-145 once
the size `ft_size` has been found in state `s1`. -/
def resolved_glyph_index {φ : Type} (FT : FreeType φ) (dsc : lv_freetype_font_dsc_t)
    (s1 : φ) (ft_size : FT_SizeRec) (data : lv_freetype_glyph_cache_data_t) : φ × Nat :=
  FT.FTC_CMapCache_Lookup s1 dsc.cmap_cache dsc.face_id
    (FT.FT_Get_Charmap_Index (FT.charmap s1 ft_size.face)) data.unicode

/-- The field assignments of lines 156-172, in the branch selected by
`LV_FREETYPE_CACHE_TYPE`. In the bitmap branch `ofs_y` reads back the stored
`box_h`. -/
def fill_metrics (B : glyph_dsc_bits) (T : cache_type) (F26 : Int → Int)
    (glyph : FT_GlyphSlotRec) (dsc_out : lv_font_glyph_dsc_t) : lv_font_glyph_dsc_t :=
  match T with
  | .LV_FREETYPE_CACHE_TYPE_OUTLINE =>
    { dsc_out with
      adv_w := to_unsigned B.adv_w (F26 glyph.metrics.horiAdvance)
      box_h := to_unsigned B.box_h (F26 glyph.metrics.height)
      box_w := to_unsigned B.box_w (F26 glyph.metrics.width)
      ofs_x := to_signed B.ofs_x (F26 glyph.metrics.horiBearingX)
      ofs_y := to_signed B.ofs_y (F26 (glyph.metrics.horiBearingY - glyph.metrics.height)) }
  | .LV_FREETYPE_CACHE_TYPE_BITMAP =>
    let box_h := to_unsigned B.box_h glyph.bitmap.rows
    { dsc_out with
      adv_w := to_unsigned B.adv_w (F26 glyph.advance_x)
      box_h := box_h
      box_w := to_unsigned B.box_w glyph.bitmap.width
      ofs_x := to_signed B.ofs_x glyph.bitmap_left
      ofs_y := to_signed B.ofs_y (glyph.bitmap_top - (box_h : Int)) }

/-- Embedding of `freetype_glyph_create_cb` (lines 130-179). `dsc` is `user_data`,
`ft` the rasterizer state on entry, `data` the content of the record on entry.
The resolved index is an `FT_UInt`; `glyph_index` of the descriptor is a 32-bit
unsigned field. -/
def freetype_glyph_create_cb {φ : Type} (B : glyph_dsc_bits) (T : cache_type)
    (FT : FreeType φ) (dsc : lv_freetype_font_dsc_t) (ft : φ)
    (data : lv_freetype_glyph_cache_data_t) : glyph_create_result φ :=
  match FT.lv_freetype_lookup_size ft dsc with
  | (s1, none) =>
    { ret := false, data := data, ft := s1, calls := [.lookup_size dsc] }
  | (s1, some ft_size) =>
    let face := ft_size.face
    let charmap_index := FT.FT_Get_Charmap_Index (FT.charmap s1 face)
    let (s2, glyph_index) := resolved_glyph_index FT dsc s1 ft_size data
    let s3 := FT.FT_Set_Pixel_Sizes s2 face 0 dsc.size
    let flags := FT.FT_LOAD_COMPUTE_METRICS ||| FT.FT_LOAD_NO_BITMAP
    let (s4, error) := FT.FT_Load_Glyph s3 face glyph_index flags
    let calls : List ft_call :=
      [.lookup_size dsc, .get_charmap_index (FT.charmap s1 face),
       .cmap_lookup dsc.cmap_cache dsc.face_id charmap_index data.unicode,
       .set_pixel_sizes face 0 dsc.size, .load_glyph face glyph_index flags]
    if error ≠ 0 then
      { ret := false, data := data, ft := s4, calls := calls }
    else
      let d1 := fill_metrics B T FT.FT_F26DOT6_TO_INT (FT.glyph s4 face) data.glyph_dsc
      let d2 := { d1 with
        bpp := to_unsigned B.bpp 8
        is_placeholder := decide (glyph_index = 0)
        glyph_index := to_unsigned 32 glyph_index }
      { ret := true, data := { data with glyph_dsc := d2 }, ft := s4, calls := calls }

/-! ## Concrete instances used to evaluate the embedding -/

/-- Field widths of a descriptor with 16-bit metrics and a 4-bit `bpp`. -/
def bits16 : glyph_dsc_bits :=
  { adv_w := 16, box_w := 16, box_h := 16, ofs_x := 16, ofs_y := 16, bpp := 4 }

/-- State of a small reference-counting cache: the resident records, and the
reference count of each handle (a handle is the position of its record). -/
structure table_cache where
  records : List lv_freetype_glyph_cache_data_t
  refs : Nat → Nat

/-- Operations of the small cache: a lookup by `freetype_glyph_compare_cb` that
increments the reference count on a hit and fails on a miss; release decrements. -/
def table_ops : lv_cache_ops table_cache where
  lv_cache_acquire_or_create := fun s key _ =>
    match s.records.findIdx? (fun r => decide (freetype_glyph_compare_cb key r = 0)) with
    | some i => ({ s with refs := Function.update s.refs i (s.refs i + 1) }, some i)
    | none => (s, none)
  lv_cache_entry_get_data := fun s e =>
    s.records.getD e { unicode := 0, size := 0, glyph_dsc := glyph_dsc_zero }
  lv_cache_release := fun s e => { s with refs := Function.update s.refs e (s.refs e - 1) }

/-- A cached record for `A` at size 16 with `box_w = 10` and `ofs_x = 2`. -/
def sample_record : lv_freetype_glyph_cache_data_t :=
  { unicode := 65, size := 16
    glyph_dsc := { adv_w := 9, box_w := 10, box_h := 11, ofs_x := 2, ofs_y := -3, bpp := 8,
                   is_placeholder := false, glyph_index := 36, entry := some 4096 } }

/-- A cache holding `sample_record` with no outstanding reference. -/
def sample_cache : table_cache :=
  { records := [sample_record], refs := fun _ => 0 }

/-- A descriptor left over from an earlier lookup that hit a placeholder glyph. -/
def stale_dsc : lv_font_glyph_dsc_t :=
  { adv_w := 5, box_w := 6, box_h := 7, ofs_x := 1, ofs_y := -1, bpp := 8,
    is_placeholder := true, glyph_index := 7, entry := some 4096 }

/-- An italic font of size 16 (with `LV_FREETYPE_FONT_STYLE_ITALIC = 1`). -/
def italic16 : lv_freetype_font_dsc_t :=
  { size := 16, style := 1, face_id := 1, cmap_cache := 2 }

/-- A font context of size 20. -/
def normal20 : lv_freetype_font_dsc_t :=
  { size := 20, style := 0, face_id := 1, cmap_cache := 2 }

/-- A small rasterizer whose state is the active pixel size: code point 65 maps
to glyph 36 and every other code point to glyph 0, loading glyph 99 fails, and a
loaded glyph is as wide and tall as the active pixel size. -/
def toy_ft : FreeType Nat where
  lv_freetype_lookup_size := fun s dsc => (s, if dsc.face_id = 0 then none else some ⟨3⟩)
  charmap := fun _ _ => 0
  FT_Get_Charmap_Index := fun c => c
  FTC_CMapCache_Lookup := fun s _ _ _ u => (s, if u = 65 then 36 else 0)
  FT_Set_Pixel_Sizes := fun _ _ _ h => h
  FT_Load_Glyph := fun s _ gi _ => (s, if gi = 99 then 1 else 0)
  glyph := fun s _ =>
    { metrics := { width := 64 * s, height := 64 * s, horiBearingX := 64,
                   horiBearingY := 64 * s, horiAdvance := 64 * s + 64 }
      advance_x := 64 * s + 64
      bitmap := { rows := s, width := s }
      bitmap_left := 1
      bitmap_top := s }
  FT_LOAD_COMPUTE_METRICS := 8
  FT_LOAD_NO_BITMAP := 16
  FT_F26DOT6_TO_INT := fun x => x / 64

/-- A record about to be created for `A` at size 12. -/
def fresh12 : lv_freetype_glyph_cache_data_t :=
  { unicode := 65, size := 12, glyph_dsc := glyph_dsc_zero }

/-- The state of `sample_cache` after one acquisition of its record. -/
def sample_cache_held : table_cache :=
  { sample_cache with refs := Function.update sample_cache.refs 0 (sample_cache.refs 0 + 1) }

/-- Reference count of a handle in the small cache. -/
def table_refcnt (s : table_cache) (e : Nat) : Nat :=
  s.refs e

/-- A cache model with reference counts `refcnt`: a successful acquire adds one
to the count of the handle it returns, release takes one from the count of the
handle it is given, and neither touches the count of any other handle; a failed
acquire changes no count. -/
def ref_counted {σ : Type} (C : lv_cache_ops σ) (refcnt : σ → Nat → Nat) : Prop :=
  (∀ s key ctx e, (C.lv_cache_acquire_or_create s key ctx).2 = some e →
    refcnt (C.lv_cache_acquire_or_create s key ctx).1 e = refcnt s e + 1 ∧
    ∀ e2, e2 ≠ e → refcnt (C.lv_cache_acquire_or_create s key ctx).1 e2 = refcnt s e2) ∧
  (∀ s key ctx, (C.lv_cache_acquire_or_create s key ctx).2 = none →
    ∀ e2, refcnt (C.lv_cache_acquire_or_create s key ctx).1 e2 = refcnt s e2) ∧
  (∀ s e, refcnt (C.lv_cache_release s e) e = refcnt s e - 1 ∧
    ∀ e2, e2 ≠ e → refcnt (C.lv_cache_release s e) e2 = refcnt s e2)

/-! ## Theorems -/

/-- The three values `freetype_glyph_compare_cb` can return. -/
theorem compare_cb_range (lhs rhs : lv_freetype_glyph_cache_data_t) :
    freetype_glyph_compare_cb lhs rhs = -1 ∨ freetype_glyph_compare_cb lhs rhs = 0 ∨
      freetype_glyph_compare_cb lhs rhs = 1 := by
  unfold freetype_glyph_compare_cb
  split_ifs <;> simp

/-- The comparison is negative exactly on lexicographically smaller keys. -/
theorem compare_cb_neg_iff (lhs rhs : lv_freetype_glyph_cache_data_t) :
    freetype_glyph_compare_cb lhs rhs < 0 ↔
      lhs.unicode < rhs.unicode ∨ (lhs.unicode = rhs.unicode ∧ lhs.size < rhs.size) := by
  unfold freetype_glyph_compare_cb
  split_ifs <;> simp <;> omega

/-- The comparison is positive exactly on lexicographically larger keys. -/
theorem compare_cb_pos_iff (lhs rhs : lv_freetype_glyph_cache_data_t) :
    0 < freetype_glyph_compare_cb lhs rhs ↔
      rhs.unicode < lhs.unicode ∨ (lhs.unicode = rhs.unicode ∧ rhs.size < lhs.size) := by
  unfold freetype_glyph_compare_cb
  split_ifs <;> simp <;> omega

/-- The comparison is zero exactly when both key fields match. -/
theorem compare_cb_zero_iff (lhs rhs : lv_freetype_glyph_cache_data_t) :
    freetype_glyph_compare_cb lhs rhs = 0 ↔
      lhs.unicode = rhs.unicode ∧ lhs.size = rhs.size := by
  unfold freetype_glyph_compare_cb
  split_ifs <;> simp <;> omega

/-- C1: `freetype_glyph_compare_cb` is the lexicographic comparison of
(code point, pixel size): negative when the left code point is smaller, positive
when it is larger, and when the code points are equal the sign of the comparison
of the pixel sizes; it returns 0 if and only if both fields match. -/
theorem compare_cb_lexicographic (lhs rhs : lv_freetype_glyph_cache_data_t) :
    (lhs.unicode < rhs.unicode → freetype_glyph_compare_cb lhs rhs < 0) ∧
    (lhs.unicode > rhs.unicode → freetype_glyph_compare_cb lhs rhs > 0) ∧
    (lhs.unicode = rhs.unicode →
      (lhs.size < rhs.size → freetype_glyph_compare_cb lhs rhs < 0) ∧
      (lhs.size > rhs.size → freetype_glyph_compare_cb lhs rhs > 0) ∧
      (lhs.size = rhs.size → freetype_glyph_compare_cb lhs rhs = 0)) ∧
    (freetype_glyph_compare_cb lhs rhs = 0 ↔
      lhs.unicode = rhs.unicode ∧ lhs.size = rhs.size) := by
  refine ⟨fun h => ?_, fun h => ?_, fun h => ⟨fun h2 => ?_, fun h2 => ?_, fun h2 => ?_⟩,
    compare_cb_zero_iff lhs rhs⟩
  · exact (compare_cb_neg_iff lhs rhs).2 (Or.inl h)
  · exact (compare_cb_pos_iff lhs rhs).2 (Or.inl h)
  · exact (compare_cb_neg_iff lhs rhs).2 (Or.inr ⟨h, h2⟩)
  · exact (compare_cb_pos_iff lhs rhs).2 (Or.inr ⟨h, h2⟩)
  · exact (compare_cb_zero_iff lhs rhs).2 ⟨h, h2⟩

/-- C2: the ordering induced by `freetype_glyph_compare_cb` is a strict total
order: exactly one of negative, zero, positive holds for each pair; the result is
negative if and only if the swapped comparison is positive; a key compares equal
to itself; and being smaller is transitive. -/
theorem compare_cb_strict_total_order (a b c : lv_freetype_glyph_cache_data_t) :
    ((freetype_glyph_compare_cb a b < 0 ∧ ¬ freetype_glyph_compare_cb a b = 0 ∧
        ¬ freetype_glyph_compare_cb a b > 0) ∨
      (¬ freetype_glyph_compare_cb a b < 0 ∧ freetype_glyph_compare_cb a b = 0 ∧
        ¬ freetype_glyph_compare_cb a b > 0) ∨
      (¬ freetype_glyph_compare_cb a b < 0 ∧ ¬ freetype_glyph_compare_cb a b = 0 ∧
        freetype_glyph_compare_cb a b > 0)) ∧
    (freetype_glyph_compare_cb a b < 0 ↔ freetype_glyph_compare_cb b a > 0) ∧
    freetype_glyph_compare_cb a a = 0 ∧
    (freetype_glyph_compare_cb a b < 0 ∧ freetype_glyph_compare_cb b c < 0 →
      freetype_glyph_compare_cb a c < 0) := by
  refine ⟨?_, ?_, ?_, ?_⟩
  · rcases lt_trichotomy (freetype_glyph_compare_cb a b) 0 with h | h | h
    · exact Or.inl ⟨h, ne_of_lt h, not_lt.2 (le_of_lt h)⟩
    · exact Or.inr (Or.inl ⟨by omega, h, by omega⟩)
    · exact Or.inr (Or.inr ⟨not_lt.2 (le_of_lt h), ne_of_gt h, h⟩)
  · rw [compare_cb_neg_iff, gt_iff_lt, compare_cb_pos_iff]
    constructor <;> (rintro (h | ⟨h1, h2⟩) <;> [exact Or.inl h; exact Or.inr ⟨h1.symm, h2⟩])
  · exact (compare_cb_zero_iff a a).2 ⟨rfl, rfl⟩
  · rintro ⟨h1, h2⟩
    rw [compare_cb_neg_iff] at h1 h2 ⊢
    omega

/-- Witness for C2 at three concrete keys in increasing order. -/
theorem compare_cb_strict_total_order_witness :
    freetype_glyph_compare_cb ⟨65, 12, ⟨0, 0, 0, 0, 0, 0, false, 0, none⟩⟩
        ⟨65, 16, ⟨0, 0, 0, 0, 0, 0, false, 0, none⟩⟩ < 0 ∧
      freetype_glyph_compare_cb ⟨65, 16, ⟨0, 0, 0, 0, 0, 0, false, 0, none⟩⟩
        ⟨66, 8, ⟨0, 0, 0, 0, 0, 0, false, 0, none⟩⟩ < 0 ∧
      freetype_glyph_compare_cb ⟨65, 12, ⟨0, 0, 0, 0, 0, 0, false, 0, none⟩⟩
        ⟨66, 8, ⟨0, 0, 0, 0, 0, 0, false, 0, none⟩⟩ < 0 :=
  ⟨by decide, by decide,
    (compare_cb_strict_total_order ⟨65, 12, ⟨0, 0, 0, 0, 0, 0, false, 0, none⟩⟩
      ⟨65, 16, ⟨0, 0, 0, 0, 0, 0, false, 0, none⟩⟩
      ⟨66, 8, ⟨0, 0, 0, 0, 0, 0, false, 0, none⟩⟩).2.2.2 ⟨by decide, by decide⟩⟩

/-! ### The three paths of `freetype_get_glyph_dsc_cb` -/

/-- The control-character path (lines 84-92). -/
theorem get_glyph_dsc_control {σ : Type} (B : glyph_dsc_bits) (ITALIC : Nat)
    (C : lv_cache_ops σ) (dsc : lv_freetype_font_dsc_t) (cache : σ)
    (g_dsc : lv_font_glyph_dsc_t) (unicode_letter unicode_letter_next : Nat)
    (h : unicode_letter < 0x20) :
    freetype_get_glyph_dsc_cb B ITALIC C dsc cache g_dsc unicode_letter unicode_letter_next =
      { ret := true
        g_dsc := { g_dsc with adv_w := 0, box_h := 0, box_w := 0, ofs_x := 0, ofs_y := 0,
                              bpp := 0 }
        cache := cache
        calls := [] } := by
  simp only [freetype_get_glyph_dsc_cb, if_pos h]

/-- The failed-lookup path (lines 104-108). -/
theorem get_glyph_dsc_miss {σ : Type} (B : glyph_dsc_bits) (ITALIC : Nat)
    (C : lv_cache_ops σ) (dsc : lv_freetype_font_dsc_t) (cache : σ)
    (g_dsc : lv_font_glyph_dsc_t) (unicode_letter unicode_letter_next : Nat) (cache1 : σ)
    (h : ¬ unicode_letter < 0x20)
    (hacq : C.lv_cache_acquire_or_create cache (search_key dsc unicode_letter) dsc
      = (cache1, none)) :
    freetype_get_glyph_dsc_cb B ITALIC C dsc cache g_dsc unicode_letter unicode_letter_next =
      { ret := false
        g_dsc := g_dsc
        cache := cache1
        calls := [.acquire_or_create (search_key dsc unicode_letter) dsc none] } := by
  simp only [freetype_get_glyph_dsc_cb, if_neg h, hacq]

/-- The successful-lookup path (lines 104-119). -/
theorem get_glyph_dsc_hit {σ : Type} (B : glyph_dsc_bits) (ITALIC : Nat)
    (C : lv_cache_ops σ) (dsc : lv_freetype_font_dsc_t) (cache : σ)
    (g_dsc : lv_font_glyph_dsc_t) (unicode_letter unicode_letter_next : Nat) (cache1 : σ)
    (entry : Nat) (h : ¬ unicode_letter < 0x20)
    (hacq : C.lv_cache_acquire_or_create cache (search_key dsc unicode_letter) dsc
      = (cache1, some entry)) :
    freetype_get_glyph_dsc_cb B ITALIC C dsc cache g_dsc unicode_letter unicode_letter_next =
      { ret := true
        g_dsc :=
          { (if (dsc.style &&& ITALIC) ≠ 0 ∧ unicode_letter_next = 0 then
              { (C.lv_cache_entry_get_data cache1 entry).glyph_dsc with
                adv_w := to_unsigned B.adv_w
                  (((C.lv_cache_entry_get_data cache1 entry).glyph_dsc.box_w : Int)
                    + (C.lv_cache_entry_get_data cache1 entry).glyph_dsc.ofs_x) }
            else (C.lv_cache_entry_get_data cache1 entry).glyph_dsc) with entry := none }
        cache := C.lv_cache_release cache1 entry
        calls := [.acquire_or_create (search_key dsc unicode_letter) dsc (some entry),
                  .entry_get_data entry, .release entry] } := by
  simp only [freetype_get_glyph_dsc_cb, if_neg h, hacq]

/-- A value that fits an unsigned field is stored unchanged. -/
theorem to_unsigned_of_fits (bits : Nat) (v : Int) (h0 : 0 ≤ v) (h1 : v < (2 : Int) ^ bits) :
    (to_unsigned bits v : Int) = v := by
  unfold to_unsigned
  rw [Int.emod_eq_of_lt h0 h1]
  exact Int.toNat_of_nonneg h0

/-- The small cache is a reference-counting cache model. -/
theorem table_ops_ref_counted : ref_counted table_ops table_refcnt := by
  refine ⟨?_, ?_, ?_⟩
  · intro s key ctx e he
    simp only [table_ops, table_refcnt] at he ⊢
    split at he
    · rename_i i hi
      simp only [hi]
      simp only [Option.some.injEq] at he
      subst he
      refine ⟨by simp, fun e2 h2 => by simp [Function.update, h2]⟩
    · simp at he
  · intro s key ctx he e2
    simp only [table_ops, table_refcnt] at he ⊢
    split at he
    · simp at he
    · rename_i hi
      simp only [hi]
  · intro s e
    simp only [table_ops, table_refcnt]
    refine ⟨by simp, fun e2 h2 => by simp [Function.update, h2]⟩

/-! ### Control characters -/

/-- C3 (as amended): for every code point below `0x20`, every lookahead and every
prior content of the output descriptor, `freetype_get_glyph_dsc_cb` succeeds and
the returned `adv_w`, `box_w`, `box_h`, `ofs_x`, `ofs_y` and `bpp` are 0, while
`is_placeholder` and `glyph_index` are not written: they keep the prior content of
the descriptor. -/
theorem control_char_zeroes_box_and_advance {σ : Type} (B : glyph_dsc_bits) (ITALIC : Nat)
    (C : lv_cache_ops σ) (dsc : lv_freetype_font_dsc_t) (cache : σ)
    (g_dsc : lv_font_glyph_dsc_t) (unicode_letter unicode_letter_next : Nat)
    (h : unicode_letter < 0x20) :
    (freetype_get_glyph_dsc_cb B ITALIC C dsc cache g_dsc unicode_letter
        unicode_letter_next).ret = true ∧
    (freetype_get_glyph_dsc_cb B ITALIC C dsc cache g_dsc unicode_letter
        unicode_letter_next).g_dsc.adv_w = 0 ∧
    (freetype_get_glyph_dsc_cb B ITALIC C dsc cache g_dsc unicode_letter
        unicode_letter_next).g_dsc.box_w = 0 ∧
    (freetype_get_glyph_dsc_cb B ITALIC C dsc cache g_dsc unicode_letter
        unicode_letter_next).g_dsc.box_h = 0 ∧
    (freetype_get_glyph_dsc_cb B ITALIC C dsc cache g_dsc unicode_letter
        unicode_letter_next).g_dsc.ofs_x = 0 ∧
    (freetype_get_glyph_dsc_cb B ITALIC C dsc cache g_dsc unicode_letter
        unicode_letter_next).g_dsc.ofs_y = 0 ∧
    (freetype_get_glyph_dsc_cb B ITALIC C dsc cache g_dsc unicode_letter
        unicode_letter_next).g_dsc.bpp = 0 ∧
    (freetype_get_glyph_dsc_cb B ITALIC C dsc cache g_dsc unicode_letter
        unicode_letter_next).g_dsc.is_placeholder = g_dsc.is_placeholder ∧
    (freetype_get_glyph_dsc_cb B ITALIC C dsc cache g_dsc unicode_letter
        unicode_letter_next).g_dsc.glyph_index = g_dsc.glyph_index := by
  rw [get_glyph_dsc_control B ITALIC C dsc cache g_dsc unicode_letter unicode_letter_next h]
  exact ⟨rfl, rfl, rfl, rfl, rfl, rfl, rfl, rfl, rfl⟩

/-- Witness for C3: a tab looked up into a descriptor that an earlier lookup
filled. -/
theorem control_char_zeroes_box_and_advance_witness :
    (9 < 0x20) ∧
    (freetype_get_glyph_dsc_cb bits16 1 table_ops italic16 sample_cache stale_dsc 9 65).ret
      = true ∧
    (freetype_get_glyph_dsc_cb bits16 1 table_ops italic16 sample_cache stale_dsc 9 65).g_dsc.adv_w
      = 0 :=
  ⟨by decide,
    (control_char_zeroes_box_and_advance bits16 1 table_ops italic16 sample_cache stale_dsc 9 65
      (by decide)).1,
    (control_char_zeroes_box_and_advance bits16 1 table_ops italic16 sample_cache stale_dsc 9 65
      (by decide)).2.1⟩

/-- Counterexample to C3 as stated: a tab (`0x09`) looked up into a descriptor
whose prior content has `is_placeholder = true` and `glyph_index = 7` succeeds,
and the descriptor still has `is_placeholder = true` and `glyph_index = 7`, so the
returned metrics are not all zero. -/
theorem control_char_all_zero_counterexample :
    (freetype_get_glyph_dsc_cb bits16 1 table_ops italic16 sample_cache stale_dsc 9 0).ret
      = true ∧
    (freetype_get_glyph_dsc_cb bits16 1 table_ops italic16 sample_cache stale_dsc
      9 0).g_dsc.is_placeholder = true ∧
    (freetype_get_glyph_dsc_cb bits16 1 table_ops italic16 sample_cache stale_dsc
      9 0).g_dsc.glyph_index = 7 ∧
    ¬ ((freetype_get_glyph_dsc_cb bits16 1 table_ops italic16 sample_cache stale_dsc
          9 0).g_dsc.is_placeholder = false ∧
        (freetype_get_glyph_dsc_cb bits16 1 table_ops italic16 sample_cache stale_dsc
          9 0).g_dsc.glyph_index = 0) := by
  decide

/-- C4: for every code point below `0x20`, `freetype_get_glyph_dsc_cb` returns
without touching the cache: it makes no call to the cache library (no
acquire-or-create, hence no creation callback, and no release), and the cache
state after the call is the state before it. -/
theorem control_char_leaves_cache_untouched {σ : Type} (B : glyph_dsc_bits) (ITALIC : Nat)
    (C : lv_cache_ops σ) (dsc : lv_freetype_font_dsc_t) (cache : σ)
    (g_dsc : lv_font_glyph_dsc_t) (unicode_letter unicode_letter_next : Nat)
    (h : unicode_letter < 0x20) :
    (freetype_get_glyph_dsc_cb B ITALIC C dsc cache g_dsc unicode_letter
        unicode_letter_next).calls = [] ∧
    (freetype_get_glyph_dsc_cb B ITALIC C dsc cache g_dsc unicode_letter
        unicode_letter_next).cache = cache := by
  rw [get_glyph_dsc_control B ITALIC C dsc cache g_dsc unicode_letter unicode_letter_next h]
  exact ⟨rfl, rfl⟩

/-- Witness for C4: a tab looked up while the cache holds an acquired record. -/
theorem control_char_leaves_cache_untouched_witness :
    (9 < 0x20) ∧
    (freetype_get_glyph_dsc_cb bits16 1 table_ops italic16 sample_cache_held stale_dsc
      9 65).calls = [] ∧
    (freetype_get_glyph_dsc_cb bits16 1 table_ops italic16 sample_cache_held stale_dsc
      9 65).cache = sample_cache_held :=
  ⟨by decide,
    control_char_leaves_cache_untouched bits16 1 table_ops italic16 sample_cache_held stale_dsc
      9 65 (by decide)⟩

/-! ### Successful lookups -/

/-- C5: for a code point of at least `0x20` whose lookup succeeds on a record
with metrics `m`, an italic style and the end-of-string lookahead (0), the call
succeeds and returns `adv_w = box_w + ofs_x` of `m`, reduced to the width of the
`adv_w` field (so equal to the sum whenever the sum fits the field), and every
other metric field equal to that of `m`. -/
theorem italic_end_of_string_advance {σ : Type} (B : glyph_dsc_bits) (ITALIC : Nat)
    (C : lv_cache_ops σ) (dsc : lv_freetype_font_dsc_t) (cache : σ)
    (g_dsc : lv_font_glyph_dsc_t) (unicode_letter unicode_letter_next : Nat) (cache1 : σ)
    (entry : Nat) (m : lv_font_glyph_dsc_t)
    (hletter : 0x20 ≤ unicode_letter)
    (hacq : C.lv_cache_acquire_or_create cache (search_key dsc unicode_letter) dsc
      = (cache1, some entry))
    (hm : (C.lv_cache_entry_get_data cache1 entry).glyph_dsc = m)
    (hitalic : (dsc.style &&& ITALIC) ≠ 0) (hnext : unicode_letter_next = 0) :
    (freetype_get_glyph_dsc_cb B ITALIC C dsc cache g_dsc unicode_letter
        unicode_letter_next).ret = true ∧
    (freetype_get_glyph_dsc_cb B ITALIC C dsc cache g_dsc unicode_letter
        unicode_letter_next).g_dsc.adv_w = to_unsigned B.adv_w ((m.box_w : Int) + m.ofs_x) ∧
    (0 ≤ (m.box_w : Int) + m.ofs_x → (m.box_w : Int) + m.ofs_x < (2 : Int) ^ B.adv_w →
      ((freetype_get_glyph_dsc_cb B ITALIC C dsc cache g_dsc unicode_letter
        unicode_letter_next).g_dsc.adv_w : Int) = (m.box_w : Int) + m.ofs_x) ∧
    (freetype_get_glyph_dsc_cb B ITALIC C dsc cache g_dsc unicode_letter
        unicode_letter_next).g_dsc.box_w = m.box_w ∧
    (freetype_get_glyph_dsc_cb B ITALIC C dsc cache g_dsc unicode_letter
        unicode_letter_next).g_dsc.box_h = m.box_h ∧
    (freetype_get_glyph_dsc_cb B ITALIC C dsc cache g_dsc unicode_letter
        unicode_letter_next).g_dsc.ofs_x = m.ofs_x ∧
    (freetype_get_glyph_dsc_cb B ITALIC C dsc cache g_dsc unicode_letter
        unicode_letter_next).g_dsc.ofs_y = m.ofs_y ∧
    (freetype_get_glyph_dsc_cb B ITALIC C dsc cache g_dsc unicode_letter
        unicode_letter_next).g_dsc.bpp = m.bpp ∧
    (freetype_get_glyph_dsc_cb B ITALIC C dsc cache g_dsc unicode_letter
        unicode_letter_next).g_dsc.is_placeholder = m.is_placeholder ∧
    (freetype_get_glyph_dsc_cb B ITALIC C dsc cache g_dsc unicode_letter
        unicode_letter_next).g_dsc.glyph_index = m.glyph_index := by
  rw [get_glyph_dsc_hit B ITALIC C dsc cache g_dsc unicode_letter unicode_letter_next cache1
    entry (by omega) hacq, hm, if_pos ⟨hitalic, hnext⟩]
  exact ⟨rfl, rfl, fun h0 h1 => to_unsigned_of_fits _ _ h0 h1, rfl, rfl, rfl, rfl, rfl, rfl, rfl⟩

/-- Witness for C5: the last letter `A` of an italic string, cached with
`box_w = 10`, `ofs_x = 2` and `adv_w = 9`, comes back with `adv_w = 12`. -/
theorem italic_end_of_string_advance_witness :
    sample_record.glyph_dsc.box_w = 10 ∧ sample_record.glyph_dsc.ofs_x = 2 ∧
    sample_record.glyph_dsc.adv_w = 9 ∧
    (freetype_get_glyph_dsc_cb bits16 1 table_ops italic16 sample_cache stale_dsc 65 0).g_dsc.adv_w
      = to_unsigned 16 ((10 : Nat) + (2 : Int)) ∧
    to_unsigned 16 ((10 : Nat) + (2 : Int)) = 12 :=
  ⟨by decide, by decide, by decide,
    (italic_end_of_string_advance bits16 1 table_ops italic16 sample_cache stale_dsc 65 0
      sample_cache_held 0 sample_record.glyph_dsc (by decide) rfl rfl (by decide) rfl).2.1,
    by decide⟩

/-- C6: for a code point of at least `0x20` whose lookup succeeds on a record
with metrics `m`, when the style is not italic or the lookahead is not the sentinel
for the end of the string, the call returns a value copy of `m`: every metric field,
`adv_w` included, equals that of `m`, and the returned `entry` is `NULL`. The
cache is only acquired from and released to (no other call is made and the final
state is the released one), so in a cache whose release leaves records alone the
record read after the call is the record read before. -/
theorem plain_lookup_copies_metrics {σ : Type} (B : glyph_dsc_bits) (ITALIC : Nat)
    (C : lv_cache_ops σ) (dsc : lv_freetype_font_dsc_t) (cache : σ)
    (g_dsc : lv_font_glyph_dsc_t) (unicode_letter unicode_letter_next : Nat) (cache1 : σ)
    (entry : Nat) (m : lv_font_glyph_dsc_t)
    (hletter : 0x20 ≤ unicode_letter)
    (hacq : C.lv_cache_acquire_or_create cache (search_key dsc unicode_letter) dsc
      = (cache1, some entry))
    (hm : (C.lv_cache_entry_get_data cache1 entry).glyph_dsc = m)
    (hplain : ¬ ((dsc.style &&& ITALIC) ≠ 0 ∧ unicode_letter_next = 0)) :
    (freetype_get_glyph_dsc_cb B ITALIC C dsc cache g_dsc unicode_letter
        unicode_letter_next).ret = true ∧
    (freetype_get_glyph_dsc_cb B ITALIC C dsc cache g_dsc unicode_letter
        unicode_letter_next).g_dsc = { m with entry := none } ∧
    (freetype_get_glyph_dsc_cb B ITALIC C dsc cache g_dsc unicode_letter
        unicode_letter_next).g_dsc.adv_w = m.adv_w ∧
    (freetype_get_glyph_dsc_cb B ITALIC C dsc cache g_dsc unicode_letter
        unicode_letter_next).g_dsc.box_w = m.box_w ∧
    (freetype_get_glyph_dsc_cb B ITALIC C dsc cache g_dsc unicode_letter
        unicode_letter_next).g_dsc.box_h = m.box_h ∧
    (freetype_get_glyph_dsc_cb B ITALIC C dsc cache g_dsc unicode_letter
        unicode_letter_next).g_dsc.ofs_x = m.ofs_x ∧
    (freetype_get_glyph_dsc_cb B ITALIC C dsc cache g_dsc unicode_letter
        unicode_letter_next).g_dsc.ofs_y = m.ofs_y ∧
    (freetype_get_glyph_dsc_cb B ITALIC C dsc cache g_dsc unicode_letter
        unicode_letter_next).g_dsc.bpp = m.bpp ∧
    (freetype_get_glyph_dsc_cb B ITALIC C dsc cache g_dsc unicode_letter
        unicode_letter_next).g_dsc.is_placeholder = m.is_placeholder ∧
    (freetype_get_glyph_dsc_cb B ITALIC C dsc cache g_dsc unicode_letter
        unicode_letter_next).g_dsc.glyph_index = m.glyph_index ∧
    (freetype_get_glyph_dsc_cb B ITALIC C dsc cache g_dsc unicode_letter
        unicode_letter_next).g_dsc.entry = none ∧
    (freetype_get_glyph_dsc_cb B ITALIC C dsc cache g_dsc unicode_letter
        unicode_letter_next).calls =
      [.acquire_or_create (search_key dsc unicode_letter) dsc (some entry),
       .entry_get_data entry, .release entry] ∧
    (freetype_get_glyph_dsc_cb B ITALIC C dsc cache g_dsc unicode_letter
        unicode_letter_next).cache = C.lv_cache_release cache1 entry ∧
    ((∀ s e, C.lv_cache_entry_get_data (C.lv_cache_release s e) e
        = C.lv_cache_entry_get_data s e) →
      (C.lv_cache_entry_get_data (freetype_get_glyph_dsc_cb B ITALIC C dsc cache g_dsc
        unicode_letter unicode_letter_next).cache entry).glyph_dsc = m) := by
  rw [get_glyph_dsc_hit B ITALIC C dsc cache g_dsc unicode_letter unicode_letter_next cache1
    entry (by omega) hacq, hm, if_neg hplain]
  exact ⟨rfl, rfl, rfl, rfl, rfl, rfl, rfl, rfl, rfl, rfl, rfl, rfl, rfl,
    fun hrel => by rw [hrel, hm]⟩

/-- Witness for C6: the letter `A` of an italic string followed by `B` comes back
with the cached `adv_w = 9`, and the cached record still reads the same. -/
theorem plain_lookup_copies_metrics_witness :
    (freetype_get_glyph_dsc_cb bits16 1 table_ops italic16 sample_cache stale_dsc 65 66).g_dsc
      = { sample_record.glyph_dsc with entry := none } ∧
    sample_record.glyph_dsc.adv_w = 9 ∧
    (table_ops.lv_cache_entry_get_data
      (freetype_get_glyph_dsc_cb bits16 1 table_ops italic16 sample_cache stale_dsc 65 66).cache
      0).glyph_dsc = sample_record.glyph_dsc :=
  ⟨(plain_lookup_copies_metrics bits16 1 table_ops italic16 sample_cache stale_dsc 65 66
      sample_cache_held 0 sample_record.glyph_dsc (by decide) rfl rfl (by decide)).2.1,
    by decide,
    (plain_lookup_copies_metrics bits16 1 table_ops italic16 sample_cache stale_dsc 65 66
      sample_cache_held 0 sample_record.glyph_dsc (by decide) rfl rfl (by decide)).2.2.2.2.2.2.2.2.2.2.2.2.2
      (fun _ _ => rfl)⟩

/-! ### Failed lookups -/

/-- C7: `freetype_get_glyph_dsc_cb` returns `false` if and only if the code point
is at least `0x20` and `lv_cache_acquire_or_create` on the key (code point, font
size) returns `NULL`; when it returns `false` the caller's descriptor is left as
it was, the one call made to the cache is that failed acquire, and nothing is
released. -/
theorem lookup_fails_iff_acquire_fails {σ : Type} (B : glyph_dsc_bits) (ITALIC : Nat)
    (C : lv_cache_ops σ) (dsc : lv_freetype_font_dsc_t) (cache : σ)
    (g_dsc : lv_font_glyph_dsc_t) (unicode_letter unicode_letter_next : Nat) :
    ((freetype_get_glyph_dsc_cb B ITALIC C dsc cache g_dsc unicode_letter
        unicode_letter_next).ret = false ↔
      (0x20 ≤ unicode_letter ∧
        (C.lv_cache_acquire_or_create cache
          { unicode := unicode_letter, size := dsc.size, glyph_dsc := glyph_dsc_zero } dsc).2
          = none)) ∧
    ((freetype_get_glyph_dsc_cb B ITALIC C dsc cache g_dsc unicode_letter
        unicode_letter_next).ret = false →
      (freetype_get_glyph_dsc_cb B ITALIC C dsc cache g_dsc unicode_letter
        unicode_letter_next).g_dsc = g_dsc ∧
      (freetype_get_glyph_dsc_cb B ITALIC C dsc cache g_dsc unicode_letter
        unicode_letter_next).calls =
          [.acquire_or_create (search_key dsc unicode_letter) dsc none] ∧
      released (freetype_get_glyph_dsc_cb B ITALIC C dsc cache g_dsc unicode_letter
        unicode_letter_next).calls = []) := by
  by_cases h : unicode_letter < 0x20
  · rw [get_glyph_dsc_control B ITALIC C dsc cache g_dsc unicode_letter unicode_letter_next h]
    refine ⟨⟨fun hf => by simp at hf, fun hf => absurd hf.1 (by omega)⟩, fun hf => by simp at hf⟩
  · rcases hacq : C.lv_cache_acquire_or_create cache (search_key dsc unicode_letter) dsc
      with ⟨cache1, _ | entry⟩
    · rw [get_glyph_dsc_miss B ITALIC C dsc cache g_dsc unicode_letter unicode_letter_next
        cache1 h hacq]
      have hacq2 := hacq
      simp only [search_key] at hacq2
      refine ⟨⟨fun _ => ⟨by omega, by rw [hacq2]⟩, fun _ => rfl⟩, fun _ => ⟨rfl, rfl, rfl⟩⟩
    · rw [get_glyph_dsc_hit B ITALIC C dsc cache g_dsc unicode_letter unicode_letter_next
        cache1 entry h hacq]
      have hacq2 := hacq
      simp only [search_key] at hacq2
      refine ⟨⟨fun hf => by simp at hf, fun hf => ?_⟩, fun hf => by simp at hf⟩
      rw [hacq2] at hf
      simp at hf

/-- Witness for C7: `A` at size 20 is not in the cache, the lookup fails and the
caller's descriptor is left as it was. -/
theorem lookup_fails_iff_acquire_fails_witness :
    (freetype_get_glyph_dsc_cb bits16 1 table_ops normal20 sample_cache stale_dsc 65 0).ret
      = false ∧
    (freetype_get_glyph_dsc_cb bits16 1 table_ops normal20 sample_cache stale_dsc 65 0).g_dsc
      = stale_dsc :=
  ⟨by decide,
    ((lookup_fails_iff_acquire_fails bits16 1 table_ops normal20 sample_cache stale_dsc 65 0).2
      (by decide)).1⟩

/-! ### Reference counts -/

/-- C10: on every path of `freetype_get_glyph_dsc_cb` the handles released are
exactly the handles that a successful acquire of this call returned, at most one,
released once; hence in every reference-counting cache model the reference count
of every handle is the same after the call as before it. -/
theorem refcount_balance {σ : Type} (B : glyph_dsc_bits) (ITALIC : Nat)
    (C : lv_cache_ops σ) (dsc : lv_freetype_font_dsc_t) (cache : σ)
    (g_dsc : lv_font_glyph_dsc_t) (unicode_letter unicode_letter_next : Nat) :
    released (freetype_get_glyph_dsc_cb B ITALIC C dsc cache g_dsc unicode_letter
        unicode_letter_next).calls
      = acquired (freetype_get_glyph_dsc_cb B ITALIC C dsc cache g_dsc unicode_letter
        unicode_letter_next).calls ∧
    (acquired (freetype_get_glyph_dsc_cb B ITALIC C dsc cache g_dsc unicode_letter
        unicode_letter_next).calls).length ≤ 1 ∧
    ∀ refcnt : σ → Nat → Nat, ref_counted C refcnt → ∀ e : Nat,
      refcnt (freetype_get_glyph_dsc_cb B ITALIC C dsc cache g_dsc unicode_letter
        unicode_letter_next).cache e = refcnt cache e := by
  by_cases h : unicode_letter < 0x20
  · rw [get_glyph_dsc_control B ITALIC C dsc cache g_dsc unicode_letter unicode_letter_next h]
    exact ⟨rfl, by simp [acquired], fun _ _ _ => rfl⟩
  · rcases hacq : C.lv_cache_acquire_or_create cache (search_key dsc unicode_letter) dsc
      with ⟨cache1, _ | entry⟩
    · rw [get_glyph_dsc_miss B ITALIC C dsc cache g_dsc unicode_letter unicode_letter_next
        cache1 h hacq]
      refine ⟨rfl, by simp [acquired], fun refcnt hrc e => ?_⟩
      have := hrc.2.1 cache (search_key dsc unicode_letter) dsc (by rw [hacq]) e
      rw [hacq] at this
      exact this
    · rw [get_glyph_dsc_hit B ITALIC C dsc cache g_dsc unicode_letter unicode_letter_next
        cache1 entry h hacq]
      refine ⟨rfl, by simp [acquired], fun refcnt hrc e => ?_⟩
      have hA := hrc.1 cache (search_key dsc unicode_letter) dsc entry (by rw [hacq])
      rw [hacq] at hA
      have hR := hrc.2.2 cache1 entry
      show refcnt (C.lv_cache_release cache1 entry) e = refcnt cache e
      by_cases he : e = entry
      · subst he
        rw [hR.1, hA.1]
        omega
      · rw [hR.2 e he, hA.2 e he]

/-- Witness for C10: a lookup of the cached `A` acquires handle 0, releases
handle 0, and leaves its reference count in the small cache where it was. -/
theorem refcount_balance_witness :
    ref_counted table_ops table_refcnt ∧
    acquired (freetype_get_glyph_dsc_cb bits16 1 table_ops italic16 sample_cache stale_dsc
      65 0).calls = [0] ∧
    released (freetype_get_glyph_dsc_cb bits16 1 table_ops italic16 sample_cache stale_dsc
      65 0).calls = [0] ∧
    table_refcnt (freetype_get_glyph_dsc_cb bits16 1 table_ops italic16 sample_cache stale_dsc
      65 0).cache 0 = table_refcnt sample_cache 0 :=
  ⟨table_ops_ref_counted, by decide, by decide,
    (refcount_balance bits16 1 table_ops italic16 sample_cache stale_dsc 65 0).2.2
      table_refcnt table_ops_ref_counted 0⟩

/-! ### The creation callback -/

/-- The calls `freetype_glyph_create_cb` makes once the size lookup has
succeeded, whatever the outcome of loading the glyph. -/
theorem create_cb_calls {φ : Type} (B : glyph_dsc_bits) (T : cache_type) (FT : FreeType φ)
    (dsc : lv_freetype_font_dsc_t) (ft : φ) (data : lv_freetype_glyph_cache_data_t)
    (s1 : φ) (ft_size : FT_SizeRec)
    (hsize : FT.lv_freetype_lookup_size ft dsc = (s1, some ft_size)) :
    (freetype_glyph_create_cb B T FT dsc ft data).calls =
      [.lookup_size dsc, .get_charmap_index (FT.charmap s1 ft_size.face),
       .cmap_lookup dsc.cmap_cache dsc.face_id
         (FT.FT_Get_Charmap_Index (FT.charmap s1 ft_size.face)) data.unicode,
       .set_pixel_sizes ft_size.face 0 dsc.size,
       .load_glyph ft_size.face (resolved_glyph_index FT dsc s1 ft_size data).2
         (FT.FT_LOAD_COMPUTE_METRICS ||| FT.FT_LOAD_NO_BITMAP)] := by
  simp only [freetype_glyph_create_cb, hsize]
  split <;> rfl

/-- The descriptor `freetype_glyph_create_cb` stores when it succeeds. -/
theorem create_cb_success {φ : Type} (B : glyph_dsc_bits) (T : cache_type) (FT : FreeType φ)
    (dsc : lv_freetype_font_dsc_t) (ft : φ) (data : lv_freetype_glyph_cache_data_t)
    (s1 : φ) (ft_size : FT_SizeRec)
    (hsize : FT.lv_freetype_lookup_size ft dsc = (s1, some ft_size))
    (hret : (freetype_glyph_create_cb B T FT dsc ft data).ret = true) :
    ∃ d1 : lv_font_glyph_dsc_t,
      (freetype_glyph_create_cb B T FT dsc ft data).data.glyph_dsc =
        { d1 with
          bpp := to_unsigned B.bpp 8
          is_placeholder := decide ((resolved_glyph_index FT dsc s1 ft_size data).2 = 0)
          glyph_index := to_unsigned 32 (resolved_glyph_index FT dsc s1 ft_size data).2 } := by
  simp only [freetype_glyph_create_cb, hsize] at hret ⊢
  split at hret
  · simp at hret
  · rename_i herr
    rw [if_neg herr]
    exact ⟨_, rfl⟩

/-- The rasterizer state `freetype_glyph_create_cb` leaves once the size lookup has
succeeded: the state after `FT_Load_Glyph`, which ran on the state produced by
`FT_Set_Pixel_Sizes(face, 0, dsc->size)`. -/
theorem create_cb_state {φ : Type} (B : glyph_dsc_bits) (T : cache_type) (FT : FreeType φ)
    (dsc : lv_freetype_font_dsc_t) (ft : φ) (data : lv_freetype_glyph_cache_data_t)
    (s1 : φ) (ft_size : FT_SizeRec)
    (hsize : FT.lv_freetype_lookup_size ft dsc = (s1, some ft_size)) :
    (freetype_glyph_create_cb B T FT dsc ft data).ft =
      (FT.FT_Load_Glyph
        (FT.FT_Set_Pixel_Sizes (resolved_glyph_index FT dsc s1 ft_size data).1
          ft_size.face 0 dsc.size)
        ft_size.face (resolved_glyph_index FT dsc s1 ft_size data).2
        (FT.FT_LOAD_COMPUTE_METRICS ||| FT.FT_LOAD_NO_BITMAP)).1 := by
  simp only [freetype_glyph_create_cb, hsize]
  split <;> rfl

/-- The key that `freetype_get_glyph_dsc_cb` hands to the cache carries the size
of the font context handed over with it: every acquire of the call log has
`key.size = user_data.size`. -/
theorem adapter_key_size {σ : Type} (B : glyph_dsc_bits) (ITALIC : Nat)
    (C : lv_cache_ops σ) (dsc : lv_freetype_font_dsc_t) (cache : σ)
    (g_dsc : lv_font_glyph_dsc_t) (unicode_letter unicode_letter_next : Nat)
    (key : lv_freetype_glyph_cache_data_t) (user_data : lv_freetype_font_dsc_t)
    (res : Option Nat)
    (hcall : cache_call.acquire_or_create key user_data res ∈
      (freetype_get_glyph_dsc_cb B ITALIC C dsc cache g_dsc unicode_letter
        unicode_letter_next).calls) :
    key.size = user_data.size := by
  by_cases h : unicode_letter < 0x20
  · rw [get_glyph_dsc_control B ITALIC C dsc cache g_dsc unicode_letter unicode_letter_next h]
      at hcall
    simp at hcall
  · rcases hacq : C.lv_cache_acquire_or_create cache (search_key dsc unicode_letter) dsc
      with ⟨cache1, _ | entry⟩
    · rw [get_glyph_dsc_miss B ITALIC C dsc cache g_dsc unicode_letter unicode_letter_next
        cache1 h hacq] at hcall
      simp only [List.mem_singleton, cache_call.acquire_or_create.injEq] at hcall
      obtain ⟨hk, hu, _⟩ := hcall
      rw [hk, hu]
      rfl
    · rw [get_glyph_dsc_hit B ITALIC C dsc cache g_dsc unicode_letter unicode_letter_next
        cache1 entry h hacq] at hcall
      simp only [List.mem_cons, cache_call.acquire_or_create.injEq, List.mem_singleton,
        reduceCtorEq, or_false, List.not_mem_nil] at hcall
      obtain ⟨hk, hu, _⟩ := hcall
      rw [hk, hu]
      rfl

/-- C8: for every record and font context passed to `freetype_glyph_create_cb`
(the record being created carries in its key the size of the context it is
created with, `data->size = dsc->size`, as in the acquire of
`freetype_get_glyph_dsc_cb`), the active pixel size of the rasterizer is set to
the pixel size stored in the key of the record before the glyph is loaded: once
the size lookup has succeeded the calls end with
`FT_Set_Pixel_Sizes(face, 0, data->size)` followed by `FT_Load_Glyph`, and
`FT_Load_Glyph` runs on the very state `FT_Set_Pixel_Sizes` produced; when the
size lookup fails no glyph is loaded. -/
theorem create_cb_sets_record_pixel_size {φ : Type} (B : glyph_dsc_bits) (T : cache_type)
    (FT : FreeType φ) (dsc : lv_freetype_font_dsc_t) (ft : φ)
    (data : lv_freetype_glyph_cache_data_t) (hkey : data.size = dsc.size) :
    (∀ s1 ft_size, FT.lv_freetype_lookup_size ft dsc = (s1, some ft_size) →
      (freetype_glyph_create_cb B T FT dsc ft data).calls =
        [.lookup_size dsc, .get_charmap_index (FT.charmap s1 ft_size.face),
         .cmap_lookup dsc.cmap_cache dsc.face_id
           (FT.FT_Get_Charmap_Index (FT.charmap s1 ft_size.face)) data.unicode,
         .set_pixel_sizes ft_size.face 0 data.size,
         .load_glyph ft_size.face (resolved_glyph_index FT dsc s1 ft_size data).2
           (FT.FT_LOAD_COMPUTE_METRICS ||| FT.FT_LOAD_NO_BITMAP)] ∧
      (freetype_glyph_create_cb B T FT dsc ft data).ft =
        (FT.FT_Load_Glyph
          (FT.FT_Set_Pixel_Sizes (resolved_glyph_index FT dsc s1 ft_size data).1
            ft_size.face 0 data.size)
          ft_size.face (resolved_glyph_index FT dsc s1 ft_size data).2
          (FT.FT_LOAD_COMPUTE_METRICS ||| FT.FT_LOAD_NO_BITMAP)).1) ∧
    (∀ s1, FT.lv_freetype_lookup_size ft dsc = (s1, none) →
      (freetype_glyph_create_cb B T FT dsc ft data).calls = [.lookup_size dsc] ∧
      (freetype_glyph_create_cb B T FT dsc ft data).ft = s1 ∧
      (freetype_glyph_create_cb B T FT dsc ft data).ret = false) := by
  refine ⟨fun s1 ft_size hsize => ?_, fun s1 hsize => ?_⟩
  · rw [hkey]
    exact ⟨create_cb_calls B T FT dsc ft data s1 ft_size hsize,
      create_cb_state B T FT dsc ft data s1 ft_size hsize⟩
  · simp only [freetype_glyph_create_cb, hsize, and_self]

/-- Witness for C8: creating the record that a lookup of `A` in a font of size 20
asks for (key size 20) sets the pixel size to 20, then loads glyph 36, and leaves
the rasterizer with an active pixel size of 20. -/
theorem create_cb_sets_record_pixel_size_witness :
    (search_key normal20 65).size = normal20.size ∧
    (search_key normal20 65).size = 20 ∧
    (freetype_glyph_create_cb bits16 .LV_FREETYPE_CACHE_TYPE_OUTLINE toy_ft normal20 0
      (search_key normal20 65)).calls =
        [.lookup_size normal20, .get_charmap_index 0, .cmap_lookup 2 1 0 65,
         .set_pixel_sizes 3 0 20, .load_glyph 3 36 24] ∧
    (freetype_glyph_create_cb bits16 .LV_FREETYPE_CACHE_TYPE_OUTLINE toy_ft normal20 0
      (search_key normal20 65)).ft = 20 :=
  ⟨rfl, rfl,
    ((create_cb_sets_record_pixel_size bits16 .LV_FREETYPE_CACHE_TYPE_OUTLINE toy_ft normal20 0
      (search_key normal20 65) rfl).1 0 ⟨3⟩ rfl).1,
    ((create_cb_sets_record_pixel_size bits16 .LV_FREETYPE_CACHE_TYPE_OUTLINE toy_ft normal20 0
      (search_key normal20 65) rfl).1 0 ⟨3⟩ rfl).2⟩

/-- C9: whenever `freetype_glyph_create_cb` succeeds, in either metrics mode, the
stored descriptor has `is_placeholder = true` if and only if the glyph index
resolved for the code point of the record is 0, `glyph_index` equal to that
index, and `bpp = 8` (for a `bpp` field of at least 4 bits and an index that is
a 32-bit unsigned value). -/
theorem create_cb_flags_placeholder {φ : Type} (B : glyph_dsc_bits) (T : cache_type)
    (FT : FreeType φ) (dsc : lv_freetype_font_dsc_t) (ft : φ)
    (data : lv_freetype_glyph_cache_data_t) (s1 : φ) (ft_size : FT_SizeRec)
    (hsize : FT.lv_freetype_lookup_size ft dsc = (s1, some ft_size))
    (hret : (freetype_glyph_create_cb B T FT dsc ft data).ret = true)
    (hbpp : 4 ≤ B.bpp)
    (hidx : (resolved_glyph_index FT dsc s1 ft_size data).2 < 2 ^ 32) :
    ((freetype_glyph_create_cb B T FT dsc ft data).data.glyph_dsc.is_placeholder = true ↔
      (resolved_glyph_index FT dsc s1 ft_size data).2 = 0) ∧
    (freetype_glyph_create_cb B T FT dsc ft data).data.glyph_dsc.glyph_index
      = (resolved_glyph_index FT dsc s1 ft_size data).2 ∧
    (freetype_glyph_create_cb B T FT dsc ft data).data.glyph_dsc.bpp = 8 := by
  obtain ⟨d1, hd⟩ := create_cb_success B T FT dsc ft data s1 ft_size hsize hret
  rw [hd]
  refine ⟨by simp, ?_, ?_⟩
  · have h := to_unsigned_of_fits 32 ((resolved_glyph_index FT dsc s1 ft_size data).2 : Int)
      (by positivity) (by exact_mod_cast hidx)
    exact_mod_cast h
  · have h8 : (8 : Int) < (2 : Int) ^ B.bpp := by
      calc (8 : Int) < 2 ^ 4 := by norm_num
        _ ≤ 2 ^ B.bpp := pow_le_pow_right₀ (by norm_num) hbpp
    have h := to_unsigned_of_fits B.bpp 8 (by norm_num) h8
    exact_mod_cast h

/-- Witness for C9: creating `A` (glyph 36) in outline mode stores a descriptor
that is not a placeholder, with `glyph_index = 36` and `bpp = 8`. -/
theorem create_cb_flags_placeholder_witness :
    (freetype_glyph_create_cb bits16 .LV_FREETYPE_CACHE_TYPE_OUTLINE toy_ft normal20 0
      fresh12).ret = true ∧
    (resolved_glyph_index toy_ft normal20 0 ⟨3⟩ fresh12).2 = 36 ∧
    (freetype_glyph_create_cb bits16 .LV_FREETYPE_CACHE_TYPE_OUTLINE toy_ft normal20 0
      fresh12).data.glyph_dsc.glyph_index = (resolved_glyph_index toy_ft normal20 0 ⟨3⟩ fresh12).2 ∧
    (freetype_glyph_create_cb bits16 .LV_FREETYPE_CACHE_TYPE_OUTLINE toy_ft normal20 0
      fresh12).data.glyph_dsc.bpp = 8 :=
  ⟨by decide, by decide,
    (create_cb_flags_placeholder bits16 .LV_FREETYPE_CACHE_TYPE_OUTLINE toy_ft normal20 0
      fresh12 0 ⟨3⟩ rfl (by decide) (by decide) (by decide)).2⟩

end LvFreetypeGlyph
